import Mathlib

/-!
Shallow embedding of `nosedjango/nosedjango.py`, the nose plugin that sets up
a Django test environment.  Python attribute-presence (`hasattr`) is modelled
with `Option`; exceptions (`AttributeError`, `NameError`, `RuntimeError`) are
modelled with `Except String`; side effects performed by lifecycle hooks are
recorded as explicit action traces.
-/

namespace NoseDjangoModel

/-- Attributes that the plugin looks up on `test.context`:
`use_transaction`, `fixtures` and `urls`; each may be absent (`none`). -/
structure TestContext where
  use_transaction : Option Bool
  fixtures : Option (List String)
  urls : Option String
deriving DecidableEq

/-- The Django settings attributes the plugin reads per test:
the two optional transaction flags (`hasattr` checks in
`_supports_transactions`) and the current `ROOT_URLCONF`. -/
structure DjangoSettings where
  DISABLE_TRANSACTION_MANAGEMENT : Option Bool
  DATABASE_SUPPORTS_TRANSACTIONS : Option Bool
  ROOT_URLCONF : String
deriving DecidableEq

/-- `NoseDjango._supports_transactions` (nosedjango.py lines 195-211):
starts from `True`; if `test.context` has `use_transaction`, the running
value is overwritten with it; if settings has
`DISABLE_TRANSACTION_MANAGEMENT`, the running value is overwritten with its
negation; if settings has `DATABASE_SUPPORTS_TRANSACTIONS` and it is false,
the result is forced to `False`. -/
def _supports_transactions (ctx : TestContext) (settings : DjangoSettings) : Bool :=
  let t0 := true
  let t1 :=
    match ctx.use_transaction with
    | some b => b
    | none => t0
  let t2 :=
    match settings.DISABLE_TRANSACTION_MANAGEMENT with
    | some b => !b
    | none => t1
  match settings.DATABASE_SUPPORTS_TRANSACTIONS with
  | some b => if !b then false else t2
  | none => t2

/-- The claim C1 reading of `_supports_transactions`, written from the spec
words for comparison: the result is true iff no present signal vetoes it
(`use_transaction` present and false, `DISABLE_TRANSACTION_MANAGEMENT`
present and true, `DATABASE_SUPPORTS_TRANSACTIONS` present and false). -/
def supportsTransactionsClaimSpec (ctx : TestContext) (settings : DjangoSettings) : Bool :=
  !(decide (ctx.use_transaction = some false)) &&
  !(decide (settings.DISABLE_TRANSACTION_MANAGEMENT = some true)) &&
  !(decide (settings.DATABASE_SUPPORTS_TRANSACTIONS = some false))

/-- The amended reading of `_supports_transactions`: the per-test preference
and the disable setting each overwrite the running value when present (so the
later of the two wins, even restoring eligibility after an earlier veto),
while the capability flag can only veto. -/
def supportsTransactionsAmendedSpec (ctx : TestContext) (settings : DjangoSettings) : Bool :=
  (match settings.DISABLE_TRANSACTION_MANAGEMENT with
   | some b => !b
   | none =>
     match ctx.use_transaction with
     | some b => b
     | none => true) &&
  !(decide (settings.DATABASE_SUPPORTS_TRANSACTIONS = some false))

/-- The six transaction-control entry points of `django.db.transaction` that
the plugin monkey-patches; `F` is the type of function bindings. -/
structure TransactionModule (F : Type) where
  commit : F
  rollback : F
  savepoint_commit : F
  savepoint_rollback : F
  enter_transaction_management : F
  leave_transaction_management : F
deriving DecidableEq

/-- The plugin attributes touched by `disable_transaction_support` /
`restore_transaction_support`: the six saved originals (absent until
`disable_transaction_support` first runs) and `_managing_transactions`. -/
structure TxPluginState (F : Type) where
  orig_commit : Option F
  orig_rollback : Option F
  orig_savepoint_commit : Option F
  orig_savepoint_rollback : Option F
  orig_enter : Option F
  orig_leave : Option F
  _managing_transactions : Bool
deriving DecidableEq

/-- `NoseDjango.disable_transaction_support` (lines 72-85): saves the six
current bindings on the plugin, then rebinds all six to the `_dummy`
no-op function. -/
def disable_transaction_support {F : Type} (p : TxPluginState F) (dummy : F)
    (t : TransactionModule F) : TxPluginState F × TransactionModule F :=
  ({ p with
      orig_commit := some t.commit
      orig_rollback := some t.rollback
      orig_savepoint_commit := some t.savepoint_commit
      orig_savepoint_rollback := some t.savepoint_rollback
      orig_enter := some t.enter_transaction_management
      orig_leave := some t.leave_transaction_management },
   { commit := dummy
     rollback := dummy
     savepoint_commit := dummy
     savepoint_rollback := dummy
     enter_transaction_management := dummy
     leave_transaction_management := dummy })

/-- `NoseDjango.restore_transaction_support` (lines 87-93): rebinds the six
entry points to the saved originals; reading a saved attribute that was
never set would raise `AttributeError`. -/
def restore_transaction_support {F : Type} (p : TxPluginState F)
    (_t : TransactionModule F) : Except String (TransactionModule F) :=
  match p.orig_commit, p.orig_rollback, p.orig_savepoint_commit,
      p.orig_savepoint_rollback, p.orig_enter, p.orig_leave with
  | some c, some r, some sc, some sr, some e, some l =>
    Except.ok
      { commit := c
        rollback := r
        savepoint_commit := sc
        savepoint_rollback := sr
        enter_transaction_management := e
        leave_transaction_management := l }
  | _, _, _, _, _, _ => Except.error "AttributeError: orig binding never saved"

/-- The transaction-binding effect of `NoseDjango.beforeTest`
(lines 238-244): record `_managing_transactions`; when transactions are
supported, enter management, mark managed, and patch the six entry points
via `disable_transaction_support` (entering/marking call the bindings but do
not rebind them). -/
def beforeTestTx {F : Type} (ctx : TestContext) (settings : DjangoSettings)
    (p : TxPluginState F) (dummy : F) (t : TransactionModule F) :
    TxPluginState F × TransactionModule F :=
  let ts := _supports_transactions ctx settings
  let p1 := { p with _managing_transactions := ts }
  if ts then disable_transaction_support p1 dummy t else (p1, t)

/-- The transaction-binding effect of `NoseDjango.afterTest` (lines 213-225):
when `_managing_transactions` is set, restore the six bindings; the
subsequent `transaction.rollback()`, conditional
`leave_transaction_management()` and `connection.close()` calls invoke the
restored bindings without rebinding them.  nose calls `afterTest` whether
the test passed, failed or errored. -/
def afterTestTx {F : Type} (p : TxPluginState F) (t : TransactionModule F) :
    Except String (TransactionModule F) :=
  if p._managing_transactions then restore_transaction_support p t
  else Except.ok t

/-- A nose test as `NoseDjango.beforeTest` sees it: the two `isinstance`
checks (`nose.case.Test`, and its `test` member being
`nose.case.MethodTestCase`) plus the `test.context` attributes. -/
structure NoseTest where
  isNoseCaseTest : Bool
  isMethodTestCase : Bool
  context : TestContext
deriving DecidableEq

/-- The plugin attributes `beforeTest` reads: `settings_path` (set by
`begin`, absence short-circuits the hook) and `urls`.  The `NoseDjango`
class assigns `self.urls` nowhere, so the attribute lookup at line 262
raises `AttributeError`; an externally absent attribute is `none`. -/
structure NoseDjangoState where
  settings_path : Option String
  urls : Option String
deriving DecidableEq

/-- Observable side effects performed by `beforeTest`, in order:
database flush, transaction-management calls, the monkey-patching of the
six transaction entry points, `loaddata`, and the URL-override steps. -/
inductive Action where
  | flush
  | enterTransactionManagement
  | managed (flag : Bool)
  | patchTransactions
  | loaddata (fixtures : List String) (verbosity : Nat)
  | saveOldUrlconf (current : String)
  | setRootUrlconf (urlconf : String)
  | clearUrlCaches
deriving DecidableEq

/-- `NoseDjango.beforeTest` (lines 227-263): short-circuit when no
`settings_path`; if `_supports_transactions`, enter transaction management,
mark managed and patch the entry points, otherwise flush with verbosity 0;
then, for a `nose.case.Test` wrapping a `MethodTestCase`, load
`test.context.fixtures` via one `loaddata` call at verbosity 0 when
declared, and when `test.context.urls` is declared save
`settings.ROOT_URLCONF` into `self.old_urlconf`, assign
`settings.ROOT_URLCONF = self.urls` (an `AttributeError` when the plugin
has no `urls` attribute) and clear the URL caches.  Returns the trace of
performed actions and the outcome. -/
def beforeTestRun (plugin : NoseDjangoState) (settings : DjangoSettings)
    (t : NoseTest) : List Action × Except String Unit :=
  match plugin.settings_path with
  | none => ([], Except.ok ())
  | some _ =>
    let ts := _supports_transactions t.context settings
    let txActs : List Action :=
      if ts then
        [Action.enterTransactionManagement, Action.managed true, Action.patchTransactions]
      else
        [Action.flush]
    let fixActs : List Action :=
      if t.isNoseCaseTest && t.isMethodTestCase then
        match t.context.fixtures with
        | some fs => [Action.loaddata fs 0]
        | none => []
      else []
    if t.isNoseCaseTest && t.isMethodTestCase && t.context.urls.isSome then
      match plugin.urls with
      | some u =>
        (txActs ++ fixActs ++
          [Action.saveOldUrlconf settings.ROOT_URLCONF, Action.setRootUrlconf u,
           Action.clearUrlCaches],
         Except.ok ())
      | none =>
        (txActs ++ fixActs ++ [Action.saveOldUrlconf settings.ROOT_URLCONF],
         Except.error "AttributeError: NoseDjango object has no attribute urls")
    else
      (txActs ++ fixActs, Except.ok ())

/-- State of `CherryPyLiveServerPlugin`: the `server_started` flag from the
source, plus ghost counters for how many servers are currently listening and
how many times `start_server` / the server stop were invoked. -/
structure LiveServerState where
  server_started : Bool
  listening : Nat
  start_calls : Nat
  stop_calls : Nat
deriving DecidableEq

/-- `CherryPyLiveServerPlugin.__init__` (lines 375-378): `server_started`
is `False` and no server exists. -/
def liveServerInit : LiveServerState :=
  { server_started := false, listening := 0, start_calls := 0, stop_calls := 0 }

/-- `CherryPyLiveServerPlugin.startTest` (lines 386-396): when the server
has not been started and the test carries a truthy `start_live_server`
attribute, invoke `start_server` (one more listening server) and set
`server_started`; otherwise do nothing. -/
def liveStartTest (st : LiveServerState) (start_live_server : Bool) : LiveServerState :=
  if !st.server_started && start_live_server then
    { server_started := true
      listening := st.listening + 1
      start_calls := st.start_calls + 1
      stop_calls := st.stop_calls }
  else st

/-- `CherryPyLiveServerPlugin.stop_test_server` (lines 417-420): stop the
server only when `server_started`, clearing the flag. -/
def stop_test_server (st : LiveServerState) : LiveServerState :=
  if st.server_started then
    { server_started := false
      listening := st.listening - 1
      start_calls := st.start_calls
      stop_calls := st.stop_calls + 1 }
  else st

/-- A whole run: `startTest` folded over the `start_live_server` attribute
of each test in sequence, from the freshly constructed plugin. -/
def liveRun (tests : List Bool) : LiveServerState :=
  tests.foldl liveStartTest liveServerInit

/-- `CherryPyLiveServerPlugin.finalize` (lines 398-399) calls
`stop_test_server`. -/
def liveFinalize (st : LiveServerState) : LiveServerState :=
  stop_test_server st

/-- Path components of a directory, from the filesystem root; `[]` is the
root directory itself. -/
abbrev FsPath := List String

/-- `get_settings_path`'s `while` loop (lines 45-52), fuelled by the depth
of the start directory: if the settings filename is listed in the current
directory, return it; otherwise move to the parent (`os.path.split`), and
return `None` upon reaching the filesystem root (posix: `cwd == '/'`)
without examining the root itself. -/
def settingsLoop (listdir : FsPath → List String) (settings_filename : String) :
    Nat → FsPath → Option FsPath
  | 0, _ => none
  | n + 1, cwd =>
    if settings_filename ∈ listdir cwd then some cwd
    else if cwd.dropLast.isEmpty then none
    else settingsLoop listdir settings_filename n cwd.dropLast

/-- The settings filename of lines 42-44: the module name is given as its
dot-split component list (Python `settings_module.split('.')`, always
nonempty), and the file hunted for is `<last component>.py`. -/
def settings_filename (settings_module : List String) : String :=
  settings_module.getLastD "" ++ ".py"

/-- `get_settings_path` (lines 37-53): hunt for the settings file by
walking up from the working directory. -/
def get_settings_path (listdir : FsPath → List String) (settings_module : List String)
    (cwd : FsPath) : Option FsPath :=
  settingsLoop listdir (settings_filename settings_module) (cwd.length + 1) cwd

/-- Modelled from the spec: `nose.importer.add_path` (imported at line 27,
not part of this repository) prepends the found directory to the import
search path. -/
def add_path (search_path : List FsPath) (dir : FsPath) : List FsPath :=
  dir :: search_path

/-- The settings-resolution part of `NoseDjango.begin` (lines 134-153):
try the direct import (its success is the `importOk` oracle); on failure
call `get_settings_path`, raise `RuntimeError` when it returns `None`, and
otherwise `add_path` the directory and also `sys.path.append` it.  Returns
the resulting import search path. -/
def beginResolveSettings (importOk : Bool) (listdir : FsPath → List String)
    (settings_module : List String) (cwd : FsPath) (search_path : List FsPath) :
    Except String (List FsPath) :=
  if importOk then Except.ok search_path
  else
    match get_settings_path listdir settings_module cwd with
    | none => Except.error "RuntimeError: cannot find Django settings file"
    | some d => Except.ok (add_path search_path d ++ [d])

/-- The `DjangoSphinxPlugin` attributes set by `configure` (lines 491-500):
`sphinx_config_tpl` and `tmp_sphinx_dir` are assigned only when the
`--sphinx-config-tpl` option was supplied; otherwise neither attribute
exists (`none`). -/
structure DjangoSphinxState where
  sphinx_config_tpl : Option String
  tmp_sphinx_dir : Option String
deriving DecidableEq

/-- `DjangoSphinxPlugin.configure` (lines 491-500): when a template path is
given, record it and create a fresh temporary directory (its name supplied
here by `tempfile.mkdtemp`); otherwise set nothing. -/
def sphinxConfigure (sphinx_config_tpl : Option String) (fresh_tmp_dir : String) :
    DjangoSphinxState :=
  match sphinx_config_tpl with
  | some tpl => { sphinx_config_tpl := some tpl, tmp_sphinx_dir := some fresh_tmp_dir }
  | none => { sphinx_config_tpl := none, tmp_sphinx_dir := none }

/-- Filesystem effect of `DjangoSphinxPlugin.finalize`. -/
inductive FsAction where
  | rmtree (dir : String) (ignore_errors : Bool)
deriving DecidableEq

/-- `DjangoSphinxPlugin.finalize` (lines 548-550): unconditionally reads
`self.tmp_sphinx_dir` and removes it with `ignore_errors=True`; when the
attribute was never set the lookup raises `AttributeError`. -/
def sphinxFinalize (p : DjangoSphinxState) : Except String (List FsAction) :=
  match p.tmp_sphinx_dir with
  | none =>
    Except.error "AttributeError: DjangoSphinxPlugin object has no attribute tmp_sphinx_dir"
  | some d => Except.ok [FsAction.rmtree d true]

/-- `DjangoSphinxPlugin._build_sphinx_index` (lines 552-559): run the
external `indexer` and wait; on nonzero exit print the problem report and
the captured stdout/stderr; in every case return normally (no exception).
The subprocess exit code, stdout and stderr are inputs of the model. -/
def _build_sphinx_index (exit_code : Int) (stdout stderr : String) :
    List String × Except String Unit :=
  if exit_code != 0 then
    (["Sphinx Indexing Problem", "stdout: " ++ stdout, "stderr: " ++ stderr],
     Except.ok ())
  else
    ([], Except.ok ())

/-- `DjangoSphinxPlugin._start_searchd` (lines 561-572): launch `searchd`
and poll once; when `poll()` returns an exit code (the daemon terminated
immediately), print the report and the captured stdout/stderr; in every
case return normally (no exception). -/
def _start_searchd (poll : Option Int) (stdout stderr : String) :
    List String × Except String Unit :=
  match poll with
  | some returned =>
    (["Sphinx Search unavailable. searchd exited with code: " ++ toString returned,
      "stdout: " ++ stdout, "stderr: " ++ stderr],
     Except.ok ())
  | none => ([], Except.ok ())

/-- Driver effect of `SeleniumPlugin.afterTest`. -/
inductive SeleniumAction where
  | quitDriver
deriving DecidableEq

/-- `SeleniumPlugin.afterTest` (lines 440-443): when `test.context` carries
a truthy `selenium` attribute, the body evaluates
`getattr(test.test, driver_attr)`, but `driver_attr` is bound neither in
the method scope nor at module level (it is only a local of
`_take_screenshot`), so the name lookup raises `NameError` before any
driver is quit; otherwise the method does nothing. -/
def seleniumAfterTest (context_selenium : Bool) :
    List SeleniumAction × Except String Unit :=
  if context_selenium then
    ([], Except.error "NameError: name driver_attr is not defined")
  else
    ([], Except.ok ())

end NoseDjangoModel

open NoseDjangoModel

/-- C1 counterexample: with `use_transaction = False` declared on the test and
`DISABLE_TRANSACTION_MANAGEMENT = False` present in settings, the per-test
signal vetoes eligibility, so the claimed "true iff no present signal vetoes"
reading yields false, yet `_supports_transactions` returns true: the disable
setting overwrites (un-vetoes) rather than merely vetoing. -/
theorem c1_counterexample :
    _supports_transactions ⟨some false, none, none⟩ ⟨some false, none, ""⟩ = true ∧
    supportsTransactionsClaimSpec ⟨some false, none, none⟩ ⟨some false, none, ""⟩ = false :=
  ⟨rfl, rfl⟩

/-- C1 (amended): `_supports_transactions` evaluates the three signals in
order; the per-test `use_transaction` preference and the global
`DISABLE_TRANSACTION_MANAGEMENT` setting each overwrite the running value
when present (the disable setting taking precedence over the per-test
preference), and the `DATABASE_SUPPORTS_TRANSACTIONS` capability flag can
only veto the result. -/
theorem c1_supports_transactions_amended (ctx : TestContext) (settings : DjangoSettings) :
    _supports_transactions ctx settings = supportsTransactionsAmendedSpec ctx settings := by
  rcases ctx with ⟨ut, fx, u⟩
  rcases settings with ⟨dis, dst, root⟩
  rcases ut with _ | _ | _ <;> rcases dis with _ | _ | _ <;> rcases dst with _ | _ | _ <;> rfl

/-- C2: for a test run with transactional isolation active
(`_supports_transactions` true), `afterTestTx` after `beforeTestTx` returns
the six transaction-control entry points to exactly their pre-test bindings:
`restore_transaction_support` undoes `disable_transaction_support`. -/
theorem c2_transaction_bindings_restored {F : Type} (ctx : TestContext)
    (settings : DjangoSettings) (p : TxPluginState F) (dummy : F)
    (t : TransactionModule F)
    (h : _supports_transactions ctx settings = true) :
    afterTestTx (beforeTestTx ctx settings p dummy t).1
        (beforeTestTx ctx settings p dummy t).2 = Except.ok t := by
  simp only [beforeTestTx, h, if_true, afterTestTx, disable_transaction_support,
    restore_transaction_support]

/-- C3: for every test for which `_supports_transactions` returns false
(and a settings path was configured by `begin`, which is the case for every
test that runs), `beforeTest` performs the full data flush first, and
performs no transaction-management entry, managed-marking, or
monkey-patching for that test. -/
theorem c3_flush_when_not_transactional (plugin : NoseDjangoState)
    (settings : DjangoSettings) (t : NoseTest) (sp : String)
    (hsp : plugin.settings_path = some sp)
    (hts : _supports_transactions t.context settings = false) :
    (beforeTestRun plugin settings t).1.head? = some Action.flush ∧
    Action.enterTransactionManagement ∉ (beforeTestRun plugin settings t).1 ∧
    Action.managed true ∉ (beforeTestRun plugin settings t).1 ∧
    Action.patchTransactions ∉ (beforeTestRun plugin settings t).1 := by
  rcases hf : t.context.fixtures with _ | fs <;>
    rcases hu : t.context.urls with _ | url <;>
    rcases hp : plugin.urls with _ | pu <;>
    cases hn : t.isNoseCaseTest <;> cases hm : t.isMethodTestCase <;>
    simp [beforeTestRun, hsp, hts, hf, hu, hp, hn, hm]

theorem c3_witness :
    (beforeTestRun ⟨some "settings", none⟩ ⟨none, some false, "project.urls"⟩
        ⟨true, true, ⟨none, none, none⟩⟩).1.head? = some Action.flush ∧
    Action.enterTransactionManagement ∉
      (beforeTestRun ⟨some "settings", none⟩ ⟨none, some false, "project.urls"⟩
        ⟨true, true, ⟨none, none, none⟩⟩).1 ∧
    Action.managed true ∉
      (beforeTestRun ⟨some "settings", none⟩ ⟨none, some false, "project.urls"⟩
        ⟨true, true, ⟨none, none, none⟩⟩).1 ∧
    Action.patchTransactions ∉
      (beforeTestRun ⟨some "settings", none⟩ ⟨none, some false, "project.urls"⟩
        ⟨true, true, ⟨none, none, none⟩⟩).1 :=
  c3_flush_when_not_transactional ⟨some "settings", none⟩
    ⟨none, some false, "project.urls"⟩ ⟨true, true, ⟨none, none, none⟩⟩
    "settings" rfl rfl

/-- C4 (code bug, evaluated at the failing input): for a method test whose
context declares `urls = test_urls`, `beforeTest` saves the old URL root but
then reads `self.urls`, an attribute the `NoseDjango` class never assigns,
so it raises `AttributeError` instead of installing the declared override
and clearing the caches. -/
theorem c4_urls_override_attribute_error :
    beforeTestRun ⟨some "settings", none⟩ ⟨some true, none, "project.urls"⟩
        ⟨true, true, ⟨none, none, some "test_urls"⟩⟩ =
      ([Action.flush, Action.saveOldUrlconf "project.urls"],
       Except.error "AttributeError: NoseDjango object has no attribute urls") :=
  rfl

/-- C7 counterexample: a test that declares `fixtures = [fixture_a]` but is
not a `MethodTestCase` (e.g. a plain function test) gets no `loaddata`
call at all — the trace is just the flush — refuting the claim for every
test exposing a `fixtures` attribute. -/
theorem c7_counterexample :
    (beforeTestRun ⟨some "settings", none⟩ ⟨none, none, "project.urls"⟩
        ⟨true, false, ⟨some false, some ["fixture_a"], none⟩⟩).1 = [Action.flush] ∧
    (⟨true, false, ⟨some false, some ["fixture_a"], none⟩⟩ : NoseTest).context.fixtures =
      some ["fixture_a"] :=
  ⟨rfl, rfl⟩

/-- C7 (amended): for every `nose.case.Test` wrapping a `MethodTestCase`
whose context declares a `fixtures` sequence (and with a settings path
configured), `beforeTest` issues a single `loaddata` command carrying the
fixtures in declared order at verbosity 0, before the test body executes. -/
theorem c7_fixtures_loaded_amended (plugin : NoseDjangoState)
    (settings : DjangoSettings) (t : NoseTest) (sp : String) (fs : List String)
    (hsp : plugin.settings_path = some sp)
    (hn : t.isNoseCaseTest = true) (hm : t.isMethodTestCase = true)
    (hf : t.context.fixtures = some fs) :
    Action.loaddata fs 0 ∈ (beforeTestRun plugin settings t).1 := by
  rcases hu : t.context.urls with _ | url <;>
    rcases hp : plugin.urls with _ | pu <;>
    cases hts : _supports_transactions t.context settings <;>
    simp [beforeTestRun, hsp, hts, hf, hu, hp, hn, hm]

theorem c7_witness :
    Action.loaddata ["fixture_a", "fixture_b"] 0 ∈
      (beforeTestRun ⟨some "settings", none⟩ ⟨none, none, "project.urls"⟩
        ⟨true, true, ⟨none, some ["fixture_a", "fixture_b"], none⟩⟩).1 :=
  c7_fixtures_loaded_amended ⟨some "settings", none⟩ ⟨none, none, "project.urls"⟩
    ⟨true, true, ⟨none, some ["fixture_a", "fixture_b"], none⟩⟩ "settings"
    ["fixture_a", "fixture_b"] rfl rfl rfl rfl

/-- C2 witness: a concrete transactional test (with `Nat` standing for
function bindings) whose bindings are restored by `afterTestTx`. -/
theorem c2_witness :
    afterTestTx
        (beforeTestTx ⟨some true, none, none⟩ ⟨none, none, ""⟩
          ⟨none, none, none, none, none, none, false⟩ 99 ⟨0, 1, 2, 3, 4, 5⟩).1
        (beforeTestTx ⟨some true, none, none⟩ ⟨none, none, ""⟩
          ⟨none, none, none, none, none, none, false⟩ 99 ⟨0, 1, 2, 3, 4, 5⟩).2 =
      Except.ok ⟨0, 1, 2, 3, 4, 5⟩ :=
  c2_transaction_bindings_restored ⟨some true, none, none⟩ ⟨none, none, ""⟩
    ⟨none, none, none, none, none, none, false⟩ 99 ⟨0, 1, 2, 3, 4, 5⟩ rfl

theorem liveStartTest_of_started (st : LiveServerState) (b : Bool)
    (h : st.server_started = true) : liveStartTest st b = st := by
  simp [liveStartTest, h]

theorem foldl_liveStartTest_of_started (ts : List Bool) (st : LiveServerState)
    (h : st.server_started = true) : ts.foldl liveStartTest st = st := by
  induction ts with
  | nil => rfl
  | cons a ts ih => rw [List.foldl_cons, liveStartTest_of_started st a h, ih]

theorem liveRun_of_requested (ts : List Bool) (h : true ∈ ts) :
    liveRun ts =
      { server_started := true, listening := 1, start_calls := 1, stop_calls := 0 } := by
  induction ts with
  | nil => cases h
  | cons a ts ih =>
    cases a
    · have h' : true ∈ ts := by simpa using h
      have hskip : liveStartTest liveServerInit false = liveServerInit := rfl
      calc (false :: ts).foldl liveStartTest liveServerInit
          = ts.foldl liveStartTest liveServerInit := by rw [List.foldl_cons, hskip]
        _ = _ := ih h'
    · have hstart : liveStartTest liveServerInit true =
          { server_started := true, listening := 1, start_calls := 1, stop_calls := 0 } := rfl
      calc (true :: ts).foldl liveStartTest liveServerInit
          = ts.foldl liveStartTest
              { server_started := true, listening := 1, start_calls := 1, stop_calls := 0 } := by
            rw [List.foldl_cons, hstart]
        _ = _ := foldl_liveStartTest_of_started ts _ rfl

/-- C5: across any run in which at least two tests carry a truthy
`start_live_server` attribute, `start_server` is invoked exactly once (the
first requesting test starts it, later requesting tests are no-ops), so
exactly one listening server exists for the whole run, and `finalize` stops
it exactly once, leaving none listening. -/
theorem c5_live_server_started_once (tests : List Bool)
    (h : 2 ≤ tests.count true) :
    liveRun tests =
      { server_started := true, listening := 1, start_calls := 1, stop_calls := 0 } ∧
    liveFinalize (liveRun tests) =
      { server_started := false, listening := 0, start_calls := 1, stop_calls := 1 } := by
  have hm : true ∈ tests := by
    by_contra hmem
    have hzero : tests.count true = 0 := List.count_eq_zero.mpr hmem
    omega
  have hr := liveRun_of_requested tests hm
  exact ⟨hr, by rw [hr]; rfl⟩

/-- C5 witness: a run of three tests, the last two requesting the live
server. -/
theorem c5_witness :
    liveRun [false, true, true] =
      { server_started := true, listening := 1, start_calls := 1, stop_calls := 0 } ∧
    liveFinalize (liveRun [false, true, true]) =
      { server_started := false, listening := 0, start_calls := 1, stop_calls := 1 } :=
  c5_live_server_started_once [false, true, true] (by decide)

theorem settingsLoop_some (listdir : FsPath → List String) (fname : String) :
    ∀ (n : Nat) (cwd d : FsPath), settingsLoop listdir fname n cwd = some d →
      fname ∈ listdir d ∧ ∃ k, d = cwd.take k := by
  intro n
  induction n with
  | zero =>
    intro cwd d h
    simp [settingsLoop] at h
  | succ n ih =>
    intro cwd d h
    rw [settingsLoop] at h
    by_cases h1 : fname ∈ listdir cwd
    · rw [if_pos h1] at h
      obtain rfl : cwd = d := by injection h
      exact ⟨h1, cwd.length, (List.take_length cwd).symm⟩
    · rw [if_neg h1] at h
      by_cases h2 : cwd.dropLast.isEmpty
      · rw [if_pos h2] at h
        exact absurd h (by simp)
      · rw [if_neg h2] at h
        obtain ⟨hmem, k, hk⟩ := ih cwd.dropLast d h
        refine ⟨hmem, min k (cwd.length - 1), ?_⟩
        rw [hk, List.dropLast_eq_take, List.take_take]

/-- C6: when the direct import of the settings module fails, `begin` walks
the filesystem upward from the working directory hunting for the file named
after the module's last dotted component: if `get_settings_path` finds a
directory, that directory is an ancestor (or the working directory itself)
containing the settings file, and it is prepended to the import search path;
if none is found, `begin` raises a fatal `RuntimeError`, aborting the run
before any test executes. -/
theorem c6_settings_locator (listdir : FsPath → List String)
    (settings_module : List String) (cwd : FsPath) (search_path : List FsPath) :
    (get_settings_path listdir settings_module cwd = none →
      beginResolveSettings false listdir settings_module cwd search_path =
        Except.error "RuntimeError: cannot find Django settings file") ∧
    (∀ d, get_settings_path listdir settings_module cwd = some d →
      settings_filename settings_module ∈ listdir d ∧
      (∃ k, d = cwd.take k) ∧
      beginResolveSettings false listdir settings_module cwd search_path =
        Except.ok (d :: search_path ++ [d])) := by
  constructor
  · intro hn
    simp [beginResolveSettings, hn]
  · intro d hd
    obtain ⟨hmem, hk⟩ :=
      settingsLoop_some listdir (settings_filename settings_module)
        (cwd.length + 1) cwd d hd
    exact ⟨hmem, hk, by simp [beginResolveSettings, hd, add_path]⟩

/-- C6 witness: with the settings file listed in `/home` and the working
directory `/home/user`, the walk finds `/home`, which lands at the front of
the import search path; the found directory is an ancestor of the working
directory holding the settings file. -/
theorem c6_witness :
    settings_filename ["settings"] ∈
      (fun p => if p = (["home"] : FsPath) then ["settings.py"] else []) ["home"] ∧
    (∃ k, (["home"] : FsPath) = (["home", "user"] : FsPath).take k) ∧
    beginResolveSettings false
        (fun p => if p = (["home"] : FsPath) then ["settings.py"] else [])
        ["settings"] ["home", "user"] [["lib"]] =
      Except.ok (["home"] :: [["lib"]] ++ [["home"]]) :=
  (c6_settings_locator
      (fun p => if p = (["home"] : FsPath) then ["settings.py"] else [])
      ["settings"] ["home", "user"] [["lib"]]).2 ["home"] (by decide)

/-- C8 (code bug, evaluated at the failing input): when no configuration
template was supplied, `configure` never creates the temporary directory,
and `finalize` then raises `AttributeError` on `self.tmp_sphinx_dir` instead
of returning quietly; when the directory was created, `finalize` removes it
with errors tolerated. -/
theorem c8_finalize_without_tmpdir_raises :
    sphinxFinalize (sphinxConfigure none "tmpdir") =
      Except.error
        "AttributeError: DjangoSphinxPlugin object has no attribute tmp_sphinx_dir" ∧
    sphinxFinalize (sphinxConfigure (some "sphinx.conf.tpl") "tmpdir") =
      Except.ok [FsAction.rmtree "tmpdir" true] :=
  ⟨rfl, rfl⟩

/-- C9: a nonzero indexer exit status or an immediately terminated search
daemon is detected and the captured stdout and stderr are printed, but
neither `_build_sphinx_index` nor `_start_searchd` raises, so the run
continues. -/
theorem c9_indexer_failures_nonfatal (exit_code : Int) (poll : Option Int)
    (stdout stderr : String) :
    (_build_sphinx_index exit_code stdout stderr).2 = Except.ok () ∧
    (_start_searchd poll stdout stderr).2 = Except.ok () ∧
    (exit_code ≠ 0 →
      ("stdout: " ++ stdout) ∈ (_build_sphinx_index exit_code stdout stderr).1 ∧
      ("stderr: " ++ stderr) ∈ (_build_sphinx_index exit_code stdout stderr).1) ∧
    (∀ returned, poll = some returned →
      ("stdout: " ++ stdout) ∈ (_start_searchd poll stdout stderr).1 ∧
      ("stderr: " ++ stderr) ∈ (_start_searchd poll stdout stderr).1) := by
  refine ⟨?_, ?_, ?_, ?_⟩
  · unfold _build_sphinx_index
    split <;> rfl
  · unfold _start_searchd
    cases poll <;> rfl
  · intro hne
    have hcond : (exit_code != 0) = true := by simpa using hne
    simp [_build_sphinx_index, hcond]
  · intro returned hr
    simp [_start_searchd, hr]

/-- C9 witness: an indexer exiting with status 1 and a daemon found dead
with exit code 1. -/
theorem c9_witness :
    (_build_sphinx_index 1 "out" "err").2 = Except.ok () ∧
    (_start_searchd (some 1) "out" "err").2 = Except.ok () ∧
    ("stdout: " ++ "out") ∈ (_build_sphinx_index 1 "out" "err").1 ∧
    ("stderr: " ++ "err") ∈ (_build_sphinx_index 1 "out" "err").1 ∧
    ("stdout: " ++ "out") ∈ (_start_searchd (some 1) "out" "err").1 ∧
    ("stderr: " ++ "err") ∈ (_start_searchd (some 1) "out" "err").1 := by
  obtain ⟨h1, h2, h3, h4⟩ := c9_indexer_failures_nonfatal 1 (some 1) "out" "err"
  obtain ⟨h5, h6⟩ := h3 (by decide)
  obtain ⟨h7, h8⟩ := h4 1 rfl
  exact ⟨h1, h2, h5, h6, h7, h8⟩

/-- C10: for every test whose context carries a truthy `selenium` attribute,
`SeleniumPlugin.afterTest` raises a `NameError` on the undefined name
`driver_attr` before quitting any driver; for tests without that attribute
`afterTest` does nothing. -/
theorem c10_selenium_aftertest_nameerror (context_selenium : Bool) :
    (context_selenium = true →
      seleniumAfterTest context_selenium =
        ([], Except.error "NameError: name driver_attr is not defined")) ∧
    (context_selenium = false →
      seleniumAfterTest context_selenium = ([], Except.ok ())) := by
  cases context_selenium <;> simp [seleniumAfterTest]

/-- C10 witness: both branches, evaluated at the concrete attribute
values. -/
theorem c10_witness :
    seleniumAfterTest true =
      ([], Except.error "NameError: name driver_attr is not defined") ∧
    seleniumAfterTest false = ([], Except.ok ()) :=
  ⟨(c10_selenium_aftertest_nameerror true).1 rfl,
   (c10_selenium_aftertest_nameerror false).2 rfl⟩
